import Mathlib

/-!
Formal model of the snowBMI temperature-index snow model
(src/snow/snow.py and src/snow/bmi_snow.py).

Embedding conventions:
- Python floats are modelled as rationals; Python ints as integers.
- numpy single-element arrays (the model always allocates arrays of
  length 1) are modelled by their single rational entry; an explicit
  list-based version of the solver is given to study multi-cell arrays.
- np.sin, a transcendental function on floats, is abstracted as an
  explicit function parameter sinq; properties that need it assume only
  that its values lie in [-1, 1], which is true of the real sine.
- Python exceptions are modelled with Except / an Option PyErr component;
  a stateful call returns the state as observed after the call, i.e. the
  state at the point the exception was raised when one is raised.
-/

/-- Exception kinds that appear when running the model. -/
inductive PyErr where
  /-- RuntimeError, raised at snow.py:64 for an invalid rain-snow method. -/
  | runtimeError
  /-- AttributeError, raised by Python when assigning to a property that
  has no setter; Snow.time_step (snow.py:181-184) is such a property. -/
  | attributeError
  /-- ValueError, raised by numpy when an array of more than one element
  is used as a truth value (for example in an if-condition). -/
  | valueError
  /-- Modelled from the spec: the spec section 7 names an InvalidTarget
  error kind for advance_until with a past target; no code path in the
  repository produces it.  It is included only so that statements can
  compare the error the code actually raises against it. -/
  | invalidTarget
deriving DecidableEq

/-- Rain-snow phase assignment, snow.py lines 49-64.
Returns 0 for snow, 1 for rain, a fraction on the linear ramp, and a
RuntimeError for an unrecognized partitioning method. -/
def ppt_phase (rain_snow : ℤ) (rs_thresh snow_thresh_max rain_thresh_min temp : ℚ) :
    Except PyErr ℚ :=
  if rain_snow = 1 then
    if temp ≤ rs_thresh then Except.ok 0 else Except.ok 1
  else if rain_snow = 2 then
    if temp ≤ snow_thresh_max then Except.ok 0
    else if temp ≥ rain_thresh_min then Except.ok 1
    else Except.ok ((temp - snow_thresh_max) / (rain_thresh_min - snow_thresh_max))
  else Except.error PyErr.runtimeError

/-- Single-cell body of solve_snow, snow.py lines 49-92, for length-1
state arrays (the only shape the Snow class constructs).  The melt
argument is kept for signature fidelity: the source overwrites it
without reading it (np.add with out=melt at snow.py:83).  The phase
error (snow.py:64) is raised before any state mutation. -/
def solve_snow (sinq : ℚ → ℚ) (temp precip : ℚ) (doy : ℤ) (swe melt : ℚ)
    (rain_snow : ℤ)
    (rs_thresh snow_thresh_max rain_thresh_min ddf_max ddf_min tair_melt_thresh : ℚ) :
    Except PyErr (ℚ × ℚ) :=
  match ppt_phase rain_snow rs_thresh snow_thresh_max rain_thresh_min temp with
  | Except.error e => Except.error e
  | Except.ok phase =>
    let snowfall_mm := (1 - phase) * precip
    let rainfall_mm := precip - snowfall_mm
    let swe1 := swe + snowfall_mm
    let ddf := ((ddf_max + ddf_min) / 2) +
      sinq (((doy : ℚ) - 81) / (5809 / 100)) * ((ddf_max - ddf_min) / 2)
    let melt_pot_mm := if temp > tair_melt_thresh then (temp - tair_melt_thresh) * ddf else 0
    let melt1 := min swe1 melt_pot_mm
    let swe2 := swe1 - melt1
    let melt2 := melt1 + rainfall_mm
    Except.ok (swe2, melt2)

/-- Array-level solve_snow over cell lists of a common length n.
For n = 1 this is the single-cell body.  For any other n, numpy raises
ValueError as soon as the comparison array temp <= threshold is used as
the truth value of the if at snow.py:52 (or :57), before any state
mutation; an unrecognized method still raises RuntimeError first, from
the else at snow.py:63-64.  Broadcasting of arrays of unequal lengths
(which also raises ValueError, possibly after partial mutation) is not
modelled; all claims use a common length. -/
def solve_snow_arr (sinq : ℚ → ℚ) (temp precip : List ℚ) (doy : ℤ) (swe melt : List ℚ)
    (rain_snow : ℤ)
    (rs_thresh snow_thresh_max rain_thresh_min ddf_max ddf_min tair_melt_thresh : ℚ) :
    Except PyErr (List ℚ × List ℚ) :=
  if rain_snow = 1 ∨ rain_snow = 2 then
    match temp, precip, swe, melt with
    | [t], [p], [s], [m] =>
      Except.map (fun r => ([r.1], [r.2]))
        (solve_snow sinq t p doy s m rain_snow
          rs_thresh snow_thresh_max rain_thresh_min ddf_max ddf_min tair_melt_thresh)
    | _, _, _, _ => Except.error PyErr.valueError
  else Except.error PyErr.runtimeError

/-- Snow model state, mirroring the fields set in Snow.__init__
(snow.py lines 104-141); the length-1 numpy arrays are modelled by
their single entry. -/
structure Snow where
  rs_method : ℤ
  rs_thresh : ℚ
  snow_thresh_max : ℚ
  rain_thresh_min : ℚ
  ddf_max : ℚ
  ddf_min : ℚ
  tair_melt_thresh : ℚ
  time : ℚ
  time_step : ℚ
  dayofyear : ℤ
  year : ℤ
  tair_c : ℚ
  ppt_mm : ℚ
  swe_mm : ℚ
  melt_mm : ℚ
deriving DecidableEq

/-- Snow() with the default constructor arguments of Snow.__init__
(snow.py:104-107): rs_method=1, rs_thresh=2.5, snow_thresh_max=1.5,
rain_thresh_min=4.5, ddf_max=1, ddf_min=0, tair_melt_thresh=1,
swe_init=0, dayofyear=274, year=2016, time=0, time_step=86400,
forcing arrays zero-initialized. -/
def snow_defaults : Snow :=
  { rs_method := 1
    rs_thresh := 5/2
    snow_thresh_max := 3/2
    rain_thresh_min := 9/2
    ddf_max := 1
    ddf_min := 0
    tair_melt_thresh := 1
    time := 0
    time_step := 86400
    dayofyear := 274
    year := 2016
    tair_c := 0
    ppt_mm := 0
    swe_mm := 0
    melt_mm := 0 }

/-- Calendar transition of Snow.advance_in_time, snow.py lines 281-291.
Python's % on a positive modulus agrees with Int.emod. -/
def advance_doy_year (dayofyear year : ℤ) : ℤ × ℤ :=
  if dayofyear = 365 then
    if year % 4 ≠ 0 then (1, year + 1)
    else (dayofyear + 1, year)
  else if dayofyear = 366 then (1, year + 1)
  else (dayofyear + 1, year)

/-- Snow.advance_in_time, snow.py lines 263-291: run solve_snow on the
current state, then advance time by time_step and roll the calendar.
If solve_snow raises, nothing has been mutated yet, so the observed
state is the input state. -/
def Snow.advance_in_time (sinq : ℚ → ℚ) (st : Snow) : Snow × Option PyErr :=
  match solve_snow sinq st.tair_c st.ppt_mm st.dayofyear st.swe_mm st.melt_mm
      st.rs_method st.rs_thresh st.snow_thresh_max st.rain_thresh_min
      st.ddf_max st.ddf_min st.tair_melt_thresh with
  | Except.error e => (st, some e)
  | Except.ok (swe2, melt2) =>
    ({ st with
        swe_mm := swe2
        melt_mm := melt2
        time := st.time + st.time_step
        dayofyear := (advance_doy_year st.dayofyear st.year).1
        year := (advance_doy_year st.dayofyear st.year).2 }, none)

/-- Python attribute assignment model.time_step = v.  Snow.time_step
(snow.py:181-184) is a read-only property: it has a getter and no
setter, so the assignment raises AttributeError and changes nothing. -/
def Snow.set_time_step (st : Snow) (v : ℚ) : Snow × Option PyErr :=
  (st, some PyErr.attributeError)

/-- BMI wrapper state (bmi_snow.py); only the wrapped model matters for
the time-control claims. -/
structure SnowBmi where
  model : Snow
deriving DecidableEq

/-- An initialized SnowBmi wrapping the default Snow model
(bmi_snow.py:41-42). -/
def bmi_default : SnowBmi := ⟨snow_defaults⟩

/-- SnowBmi.update (bmi_snow.py:59-61). -/
def SnowBmi.update (sinq : ℚ → ℚ) (b : SnowBmi) : SnowBmi × Option PyErr :=
  match b.model.advance_in_time sinq with
  | (st, e) => (⟨st⟩, e)

/-- SnowBmi.update_frac (bmi_snow.py:63-74): read the nominal step,
assign the scaled step to model.time_step, update, restore the step.
The first assignment already raises AttributeError (no setter), so the
subsequent statements model the dead remainder of the source. -/
def SnowBmi.update_frac (sinq : ℚ → ℚ) (b : SnowBmi) (time_frac : ℚ) :
    SnowBmi × Option PyErr :=
  let time_step := b.model.time_step
  match b.model.set_time_step (time_frac * time_step) with
  | (st, some e) => (⟨st⟩, some e)
  | (st, none) =>
    match SnowBmi.update sinq ⟨st⟩ with
    | (b2, some e) => (b2, some e)
    | (b2, none) =>
      match b2.model.set_time_step time_step with
      | (st2, e) => (⟨st2⟩, e)

/-- Python int() on a float: truncation toward zero. -/
def pyInt (q : ℚ) : ℤ := if q < 0 then ⌈q⌉ else ⌊q⌋

/-- The loop for _ in range(n): self.update() of bmi_snow.py:86-87 with
exception propagation: a raise stops the loop and surfaces the state at
that point. -/
def SnowBmi.updateN (sinq : ℚ → ℚ) : Nat → SnowBmi → SnowBmi × Option PyErr
  | 0, b => (b, none)
  | n + 1, b =>
    match SnowBmi.update sinq b with
    | (b1, some e) => (b1, some e)
    | (b1, none) => SnowBmi.updateN sinq n b1

/-- SnowBmi.update_until (bmi_snow.py:76-88): n_steps full updates via
range(int(n_steps)) (empty when n_steps is negative), then a fractional
update of the remainder. -/
def SnowBmi.update_until (sinq : ℚ → ℚ) (b : SnowBmi) (t_target : ℚ) :
    SnowBmi × Option PyErr :=
  let n_steps := (t_target - b.model.time) / b.model.time_step
  match SnowBmi.updateN sinq (pyInt n_steps).toNat b with
  | (b1, some e) => (b1, some e)
  | (b1, none) => SnowBmi.update_frac sinq b1 (n_steps - ((pyInt n_steps : ℤ) : ℚ))

/-- Fixed interpretation of np.sin used in concrete witnesses; every
theorem quantifies over the interpretation. -/
def sin_zero : ℚ → ℚ := fun _ => 0

/-- Default model with the unrecognized partitioning method 3. -/
def snow_bad_method : Snow := { snow_defaults with rs_method := 3 }

/-- Helper: for a recognized method the phase assignment succeeds and
the phase lies in [0, 1]. -/
lemma ppt_phase_ok_bounds (rain_snow : ℤ) (rs_thresh snow_thresh_max rain_thresh_min temp : ℚ)
    (hm : rain_snow = 1 ∨ rain_snow = 2) :
    ∃ phase, ppt_phase rain_snow rs_thresh snow_thresh_max rain_thresh_min temp =
      Except.ok phase ∧ 0 ≤ phase ∧ phase ≤ 1 := by
  rcases hm with h | h <;> subst h
  · by_cases ht : temp ≤ rs_thresh
    · exact ⟨0, by simp [ppt_phase, ht], le_refl 0, by norm_num⟩
    · exact ⟨1, by simp [ppt_phase, ht], by norm_num, le_refl 1⟩
  · by_cases h1 : temp ≤ snow_thresh_max
    · exact ⟨0, by simp [ppt_phase, h1], le_refl 0, by norm_num⟩
    · by_cases h2 : temp ≥ rain_thresh_min
      · exact ⟨1, by simp [ppt_phase, h1, h2], by norm_num, le_refl 1⟩
      · refine ⟨(temp - snow_thresh_max) / (rain_thresh_min - snow_thresh_max),
          by simp [ppt_phase, h1, h2], ?_, ?_⟩
        · have hn : 0 ≤ temp - snow_thresh_max := by linarith [not_le.mp h1]
          have hd : 0 < rain_thresh_min - snow_thresh_max := by
            have := not_le.mp h1
            have := not_le.mp h2
            linarith
          exact div_nonneg hn hd.le
        · have hd : 0 < rain_thresh_min - snow_thresh_max := by
            have := not_le.mp h1
            have := not_le.mp h2
            linarith
          rw [div_le_one hd]
          have := not_le.mp h2
          linarith

/-- C3: the calendar transition after each step: day 365 in a non-leap
year goes to day 1 of the next year; day 365 in a leap year (year
divisible by 4) goes to day 366 of the same year; day 366 goes to day 1
of the next year; any other day increments with the year unchanged. -/
theorem advance_doy_year_cases (doy year : ℤ) :
    (doy = 365 ∧ year % 4 ≠ 0 → advance_doy_year doy year = (1, year + 1)) ∧
    (doy = 365 ∧ year % 4 = 0 → advance_doy_year doy year = (366, year)) ∧
    (doy = 366 → advance_doy_year doy year = (1, year + 1)) ∧
    (doy ≠ 365 ∧ doy ≠ 366 → advance_doy_year doy year = (doy + 1, year)) := by
  refine ⟨fun h => ?_, fun h => ?_, fun h => ?_, fun h => ?_⟩
  · simp [advance_doy_year, h.1, h.2]
  · obtain ⟨h1, h2⟩ := h
    subst h1
    simp [advance_doy_year, h2]
  · subst h
    norm_num [advance_doy_year]
  · simp [advance_doy_year, h.1, h.2]

/-- Witness for C3: the four transition cases at concrete inputs. -/
theorem advance_doy_year_cases_witness :
    advance_doy_year 365 2015 = (1, 2016) ∧ advance_doy_year 365 2016 = (366, 2016) ∧
    advance_doy_year 366 2016 = (1, 2017) ∧ advance_doy_year 100 2016 = (100 + 1, 2016) :=
  ⟨(advance_doy_year_cases 365 2015).1 ⟨rfl, by decide⟩,
   (advance_doy_year_cases 365 2016).2.1 ⟨rfl, by decide⟩,
   (advance_doy_year_cases 366 2016).2.2.1 rfl,
   (advance_doy_year_cases 100 2016).2.2.2 ⟨by decide, by decide⟩⟩

/-- C10: starting from a day of year in [1, 366], the calendar
transition lands again in [1, 366]; the year stays or grows by exactly
one, and it grows exactly when the day of year resets to 1. -/
theorem advance_doy_year_range (doy year : ℤ) (h1 : 1 ≤ doy) (h2 : doy ≤ 366) :
    1 ≤ (advance_doy_year doy year).1 ∧ (advance_doy_year doy year).1 ≤ 366 ∧
    ((advance_doy_year doy year).2 = year ∨ (advance_doy_year doy year).2 = year + 1) ∧
    ((advance_doy_year doy year).2 = year + 1 ↔ (advance_doy_year doy year).1 = 1) := by
  unfold advance_doy_year
  split
  · split
    · simp_all <;> omega
    · simp_all <;> omega
  · split
    · simp_all <;> omega
    · simp_all <;> omega

/-- Witness for C10 at day 365 of non-leap year 2015. -/
theorem advance_doy_year_range_witness :
    1 ≤ (advance_doy_year 365 2015).1 ∧ (advance_doy_year 365 2015).1 ≤ 366 ∧
    ((advance_doy_year 365 2015).2 = 2015 ∨ (advance_doy_year 365 2015).2 = 2015 + 1) ∧
    ((advance_doy_year 365 2015).2 = 2015 + 1 ↔ (advance_doy_year 365 2015).1 = 1) :=
  advance_doy_year_range 365 2015 (by decide) (by decide)

/-- C9: exact boundary behaviour of the rain-snow partition: with the
threshold method, temperature equal to the threshold is snow (phase 0);
with the linear ramp, temperature at the snow bound gives phase 0, at
the rain bound gives phase 1, and at the midpoint gives phase 1/2. -/
theorem ppt_phase_boundary_values (rs_thresh snow_thresh_max rain_thresh_min : ℚ)
    (h : snow_thresh_max < rain_thresh_min) :
    ppt_phase 1 rs_thresh snow_thresh_max rain_thresh_min rs_thresh = Except.ok 0 ∧
    ppt_phase 2 rs_thresh snow_thresh_max rain_thresh_min snow_thresh_max = Except.ok 0 ∧
    ppt_phase 2 rs_thresh snow_thresh_max rain_thresh_min rain_thresh_min = Except.ok 1 ∧
    ppt_phase 2 rs_thresh snow_thresh_max rain_thresh_min
      ((snow_thresh_max + rain_thresh_min) / 2) = Except.ok (1/2) := by
  refine ⟨by simp [ppt_phase], by simp [ppt_phase], ?_, ?_⟩
  · have h1 : ¬ (rain_thresh_min ≤ snow_thresh_max) := not_le.mpr h
    simp [ppt_phase, h1]
  · have h1 : ¬ ((snow_thresh_max + rain_thresh_min) / 2 ≤ snow_thresh_max) := by
      rw [not_le]
      linarith
    have h2 : ¬ ((snow_thresh_max + rain_thresh_min) / 2 ≥ rain_thresh_min) := by
      rw [not_le]
      linarith
    have h3 : rain_thresh_min - snow_thresh_max ≠ 0 := by linarith
    simp [ppt_phase, h1, h2]
    rw [div_eq_iff h3]
    ring

/-- Witness for C9 with the default thresholds 2.5, 1.5, 4.5. -/
theorem ppt_phase_boundary_values_witness :
    ppt_phase 1 (5/2) (3/2) (9/2) (5/2) = Except.ok 0 ∧
    ppt_phase 2 (5/2) (3/2) (9/2) (3/2) = Except.ok 0 ∧
    ppt_phase 2 (5/2) (3/2) (9/2) (9/2) = Except.ok 1 ∧
    ppt_phase 2 (5/2) (3/2) (9/2) ((3/2 + 9/2) / 2) = Except.ok (1/2) :=
  ppt_phase_boundary_values (5/2) (3/2) (9/2) (by norm_num)

/-- C4 (code bug): update_frac always raises AttributeError with the
model unchanged, because Snow.time_step is a property without a setter
and the very first statement after reading the step assigns to it; the
time never advances and no update runs. -/
theorem update_frac_always_attribute_error (sinq : ℚ → ℚ) (b : SnowBmi) (time_frac : ℚ) :
    SnowBmi.update_frac sinq b time_frac = (b, some PyErr.attributeError) := rfl

/-- C6 counterexample: with ddf_min = 2 greater than ddf_max = 1 and
everything else at the defaults, solve_snow succeeds instead of raising:
no parameter-range validation exists in the code. -/
theorem solve_snow_accepts_inverted_ddf :
    solve_snow sin_zero 0 0 274 0 0 1 (5/2) (3/2) (9/2) 1 2 1 = Except.ok (0, 0) := by
  have h0 : ppt_phase 1 (5/2) (3/2) (9/2) 0 = Except.ok 0 := by
    simp [ppt_phase]
    norm_num
  simp [solve_snow, h0, sin_zero]
  norm_num

/-- C6 amended: the only validation solve_snow performs is of the
rain-snow method: an unrecognized method raises RuntimeError before any
state mutation, so advance_in_time surfaces the error with the state
exactly as it was. -/
theorem advance_invalid_method_error (sinq : ℚ → ℚ) (st : Snow)
    (h1 : st.rs_method ≠ 1) (h2 : st.rs_method ≠ 2) :
    st.advance_in_time sinq = (st, some PyErr.runtimeError) := by
  simp [Snow.advance_in_time, solve_snow, ppt_phase, h1, h2]

/-- Witness for the amended C6 at method 3. -/
theorem advance_invalid_method_error_witness :
    Snow.advance_in_time sin_zero snow_bad_method = (snow_bad_method, some PyErr.runtimeError) :=
  advance_invalid_method_error sin_zero snow_bad_method (by decide) (by decide)

/-- C1: for a recognized partitioning method with rain fraction phase,
non-negative precipitation and swe, solve_snow returns
swe2 = s - min s m and melt2 = min s m + rainfall, where
snowfall = (1 - phase) * precip, rainfall = precip - snowfall,
s = swe + snowfall, ddf the seasonal sinusoid of snow.py:74, and
m = max 0 (temp - tair_melt_thresh) * ddf. -/
theorem solve_snow_single_cell_update (sinq : ℚ → ℚ) (temp precip : ℚ) (doy : ℤ)
    (swe melt : ℚ) (rain_snow : ℤ)
    (rs_thresh snow_thresh_max rain_thresh_min ddf_max ddf_min tair_melt_thresh phase : ℚ)
    (hm : rain_snow = 1 ∨ rain_snow = 2) (hp : 0 ≤ precip) (hs : 0 ≤ swe)
    (hphase : ppt_phase rain_snow rs_thresh snow_thresh_max rain_thresh_min temp =
      Except.ok phase) :
    solve_snow sinq temp precip doy swe melt rain_snow
        rs_thresh snow_thresh_max rain_thresh_min ddf_max ddf_min tair_melt_thresh =
      Except.ok
        (swe + (1 - phase) * precip -
          min (swe + (1 - phase) * precip)
            (max 0 (temp - tair_melt_thresh) *
              ((ddf_max + ddf_min) / 2 +
                sinq (((doy : ℚ) - 81) / (5809 / 100)) * ((ddf_max - ddf_min) / 2))),
        min (swe + (1 - phase) * precip)
            (max 0 (temp - tair_melt_thresh) *
              ((ddf_max + ddf_min) / 2 +
                sinq (((doy : ℚ) - 81) / (5809 / 100)) * ((ddf_max - ddf_min) / 2))) +
          (precip - (1 - phase) * precip)) := by
  have hmax : (if temp > tair_melt_thresh then
        (temp - tair_melt_thresh) *
          ((ddf_max + ddf_min) / 2 +
            sinq (((doy : ℚ) - 81) / (5809 / 100)) * ((ddf_max - ddf_min) / 2))
      else 0) =
      max 0 (temp - tair_melt_thresh) *
        ((ddf_max + ddf_min) / 2 +
          sinq (((doy : ℚ) - 81) / (5809 / 100)) * ((ddf_max - ddf_min) / 2)) := by
    split
    · rw [max_eq_right (by linarith)]
    · rw [max_eq_left (by linarith), zero_mul]
  simp only [solve_snow, hphase, hmax]

/-- Witness for C1: threshold method, temp 5, precip 2, swe 10,
day 81, default parameters; the result is swe 8, melt 4. -/
theorem solve_snow_single_cell_update_witness :
    solve_snow sin_zero 5 2 81 10 0 1 (5/2) (3/2) (9/2) 1 0 1 = Except.ok (8, 4) := by
  have hphase : ppt_phase 1 (5/2) (3/2) (9/2) 5 = Except.ok 1 := by
    norm_num [ppt_phase]
  have h := solve_snow_single_cell_update sin_zero 5 2 81 10 0 1 (5/2) (3/2) (9/2) 1 0 1 1
    (Or.inl rfl) (by norm_num) (by norm_num) hphase
  rw [h]
  norm_num [sin_zero]

/-- Helper: with a recognized method, parameters satisfying
0 <= ddf_min <= ddf_max, a sine interpretation bounded by [-1, 1], and
non-negative precipitation and swe, solve_snow succeeds and both
outputs are non-negative. -/
lemma solve_snow_ok_nonneg (sinq : ℚ → ℚ) (hsin : ∀ x, -1 ≤ sinq x ∧ sinq x ≤ 1)
    (temp precip : ℚ) (doy : ℤ) (swe melt : ℚ) (rain_snow : ℤ)
    (rs_thresh snow_thresh_max rain_thresh_min ddf_max ddf_min tair_melt_thresh : ℚ)
    (hm : rain_snow = 1 ∨ rain_snow = 2) (hd0 : 0 ≤ ddf_min) (hdd : ddf_min ≤ ddf_max)
    (hp : 0 ≤ precip) (hs : 0 ≤ swe) :
    ∃ swe2 melt2,
      solve_snow sinq temp precip doy swe melt rain_snow
        rs_thresh snow_thresh_max rain_thresh_min ddf_max ddf_min tair_melt_thresh =
        Except.ok (swe2, melt2) ∧ 0 ≤ swe2 ∧ 0 ≤ melt2 := by
  obtain ⟨phase, hphase, hp0, hp1⟩ :=
    ppt_phase_ok_bounds rain_snow rs_thresh snow_thresh_max rain_thresh_min temp hm
  set z := (((doy : ℚ) - 81) / (5809 / 100)) with hz
  set ddf := ((ddf_max + ddf_min) / 2) + sinq z * ((ddf_max - ddf_min) / 2) with hddf
  have hhalf : 0 ≤ (ddf_max - ddf_min) / 2 := by linarith
  have hsmul : (-1 : ℚ) * ((ddf_max - ddf_min) / 2) ≤ sinq z * ((ddf_max - ddf_min) / 2) :=
    mul_le_mul_of_nonneg_right (hsin z).1 hhalf
  have hddf0 : 0 ≤ ddf := by
    rw [hddf]
    nlinarith
  have hsf : 0 ≤ (1 - phase) * precip := mul_nonneg (by linarith) hp
  have hrf : 0 ≤ precip - (1 - phase) * precip := by nlinarith
  have hs1 : 0 ≤ swe + (1 - phase) * precip := by linarith
  have hpot : 0 ≤ (if temp > tair_melt_thresh then (temp - tair_melt_thresh) * ddf else 0) := by
    split
    · exact mul_nonneg (by linarith) hddf0
    · exact le_refl 0
  refine ⟨swe + (1 - phase) * precip -
      min (swe + (1 - phase) * precip)
        (if temp > tair_melt_thresh then (temp - tair_melt_thresh) * ddf else 0),
    min (swe + (1 - phase) * precip)
        (if temp > tair_melt_thresh then (temp - tair_melt_thresh) * ddf else 0) +
      (precip - (1 - phase) * precip), ?_, ?_, ?_⟩
  · simp only [solve_snow, hphase, hddf, hz]
  · have := min_le_left (swe + (1 - phase) * precip)
      (if temp > tair_melt_thresh then (temp - tair_melt_thresh) * ddf else 0)
    linarith
  · have := le_min hs1 hpot
    linarith

/-- C2: from any state with non-negative swe and precipitation,
a recognized partitioning method and 0 <= ddf_min <= ddf_max (with the
sine interpretation bounded by [-1, 1]), one advance_in_time step
succeeds and leaves swe >= 0 and melt >= 0. -/
theorem advance_in_time_nonneg (sinq : ℚ → ℚ) (hsin : ∀ x, -1 ≤ sinq x ∧ sinq x ≤ 1)
    (st : Snow) (hm : st.rs_method = 1 ∨ st.rs_method = 2)
    (hd0 : 0 ≤ st.ddf_min) (hdd : st.ddf_min ≤ st.ddf_max)
    (hp : 0 ≤ st.ppt_mm) (hs : 0 ≤ st.swe_mm) :
    (st.advance_in_time sinq).2 = none ∧
    0 ≤ (st.advance_in_time sinq).1.swe_mm ∧ 0 ≤ (st.advance_in_time sinq).1.melt_mm := by
  obtain ⟨swe2, melt2, hok, h1, h2⟩ :=
    solve_snow_ok_nonneg sinq hsin st.tair_c st.ppt_mm st.dayofyear st.swe_mm st.melt_mm
      st.rs_method st.rs_thresh st.snow_thresh_max st.rain_thresh_min
      st.ddf_max st.ddf_min st.tair_melt_thresh hm hd0 hdd hp hs
  simp [Snow.advance_in_time, hok, h1, h2]

/-- Witness for C2 at the default model state with the zero sine
interpretation. -/
theorem advance_in_time_nonneg_witness :
    (Snow.advance_in_time sin_zero snow_defaults).2 = none ∧
    0 ≤ (Snow.advance_in_time sin_zero snow_defaults).1.swe_mm ∧
    0 ≤ (Snow.advance_in_time sin_zero snow_defaults).1.melt_mm :=
  advance_in_time_nonneg sin_zero (fun x => ⟨by norm_num [sin_zero], by norm_num [sin_zero]⟩)
    snow_defaults (Or.inl rfl) (le_refl 0) (by norm_num [snow_defaults])
    (le_refl 0) (le_refl 0)

/-- Helper: update_until with a target strictly before the current time
runs zero full steps (range of a negative count is empty) and then
update_frac raises AttributeError at the time_step assignment, leaving
the state unchanged. -/
lemma update_until_neg_eq (sinq : ℚ → ℚ) (b : SnowBmi) (t : ℚ)
    (ht : t < b.model.time) (hstep : 0 < b.model.time_step) :
    SnowBmi.update_until sinq b t = (b, some PyErr.attributeError) := by
  have hn : (t - b.model.time) / b.model.time_step < 0 :=
    div_neg_of_neg_of_pos (by linarith) hstep
  have htn : (pyInt ((t - b.model.time) / b.model.time_step)).toNat = 0 := by
    rw [pyInt, if_pos hn]
    exact Int.toNat_of_nonpos (Int.ceil_le.mpr (by exact_mod_cast hn.le))
  simp [SnowBmi.update_until, htn, SnowBmi.updateN, SnowBmi.update_frac, Snow.set_time_step]

/-- C7 amended: update_until with a target strictly before the current
time fails with AttributeError (raised by the assignment to the
read-only time_step property inside the final update_frac call), not
with an InvalidTarget error, and leaves the model state unchanged.  No
invalid-target check exists in the code. -/
theorem update_until_past_attribute_error (sinq : ℚ → ℚ) (b : SnowBmi) (t : ℚ)
    (ht : t < b.model.time) (hstep : 0 < b.model.time_step) :
    SnowBmi.update_until sinq b t = (b, some PyErr.attributeError) :=
  update_until_neg_eq sinq b t ht hstep

/-- Witness for the amended C7: default model, target -1 before the
current time 0. -/
theorem update_until_past_attribute_error_witness :
    SnowBmi.update_until sin_zero bmi_default (-1) = (bmi_default, some PyErr.attributeError) :=
  update_until_past_attribute_error sin_zero bmi_default (-1)
    (by norm_num [bmi_default, snow_defaults]) (by norm_num [bmi_default, snow_defaults])

/-- C7 counterexample: at the concrete past target -1 the error raised
is AttributeError, which is not the InvalidTarget error the claim
names. -/
theorem update_until_past_no_invalid_target :
    SnowBmi.update_until sin_zero bmi_default (-1) = (bmi_default, some PyErr.attributeError) ∧
    (some PyErr.attributeError ≠ some PyErr.invalidTarget) := by
  refine ⟨update_until_neg_eq sin_zero bmi_default (-1) ?_ ?_, by simp⟩
  · norm_num [bmi_default, snow_defaults]
  · norm_num [bmi_default, snow_defaults]

/-- Helper: one advance_in_time step of the default model under the
zero sine interpretation: no forcing, so swe and melt stay 0 and only
time and the calendar move. -/
lemma advance_default_eval :
    Snow.advance_in_time sin_zero snow_defaults =
      ({ snow_defaults with time := 86400, dayofyear := 275 }, none) := by
  have hsolve : solve_snow sin_zero 0 0 274 0 0 1 (5/2) (3/2) (9/2) 1 0 1 =
      Except.ok (0, 0) := by
    have h0 : ppt_phase 1 (5/2) (3/2) (9/2) 0 = Except.ok 0 := by
      norm_num [ppt_phase]
    norm_num [solve_snow, h0, sin_zero]
  norm_num [Snow.advance_in_time, snow_defaults, hsolve, advance_doy_year]

/-- C5 (code bug): update_until from the default model to target
129600 = 1.5 time steps performs the single full step (time reaches
86400) and then the fractional step raises AttributeError, so the
current time never equals the requested target. -/
theorem update_until_fractional_step_fails :
    (SnowBmi.update_until sin_zero bmi_default 129600).2 = some PyErr.attributeError ∧
    (SnowBmi.update_until sin_zero bmi_default 129600).1.model.time = 86400 ∧
    (86400 : ℚ) ≠ 129600 := by
  have h1 : (pyInt ((129600 - bmi_default.model.time) / bmi_default.model.time_step)).toNat
      = 1 := by
    norm_num [pyInt, bmi_default, snow_defaults]
  have heval : SnowBmi.update_until sin_zero bmi_default 129600 =
      (⟨{ snow_defaults with time := 86400, dayofyear := 275 }⟩, some PyErr.attributeError) := by
    simp only [SnowBmi.update_until, h1]
    simp [SnowBmi.updateN, SnowBmi.update, bmi_default, advance_default_eval,
      SnowBmi.update_frac, Snow.set_time_step]
  rw [heval]
  norm_num

/-- C8 amended: with a recognized method, solve_snow on one-cell arrays
equals the single-cell update lifted to lists, and on two-cell arrays
it raises ValueError (numpy refuses a two-element comparison array as
an if-condition) instead of updating element-wise. -/
theorem solve_snow_arr_single_cell_only (sinq : ℚ → ℚ) (t p s m : ℚ) (doy : ℤ)
    (rain_snow : ℤ)
    (rs_thresh snow_thresh_max rain_thresh_min ddf_max ddf_min tair_melt_thresh : ℚ)
    (hm : rain_snow = 1 ∨ rain_snow = 2) :
    solve_snow_arr sinq [t] [p] doy [s] [m] rain_snow
        rs_thresh snow_thresh_max rain_thresh_min ddf_max ddf_min tair_melt_thresh =
      Except.map (fun r => ([r.1], [r.2]))
        (solve_snow sinq t p doy s m rain_snow
          rs_thresh snow_thresh_max rain_thresh_min ddf_max ddf_min tair_melt_thresh) ∧
    (∀ t2 p2 s2 m2 : ℚ,
      solve_snow_arr sinq [t, t2] [p, p2] doy [s, s2] [m, m2] rain_snow
          rs_thresh snow_thresh_max rain_thresh_min ddf_max ddf_min tair_melt_thresh =
        Except.error PyErr.valueError) := by
  constructor
  · simp [solve_snow_arr, hm]
  · intro t2 p2 s2 m2
    simp [solve_snow_arr, hm]

/-- Witness for the amended C8 at concrete one-cell and two-cell
inputs. -/
theorem solve_snow_arr_single_cell_only_witness :
    solve_snow_arr sin_zero [5] [2] 81 [10] [0] 1 (5/2) (3/2) (9/2) 1 0 1 =
      Except.map (fun r => ([r.1], [r.2]))
        (solve_snow sin_zero 5 2 81 10 0 1 (5/2) (3/2) (9/2) 1 0 1) ∧
    solve_snow_arr sin_zero [5, 1] [2, 0] 81 [10, 0] [0, 0] 1 (5/2) (3/2) (9/2) 1 0 1 =
      Except.error PyErr.valueError := by
  have h := solve_snow_arr_single_cell_only sin_zero 5 2 10 0 81 1
    (5/2) (3/2) (9/2) 1 0 1 (Or.inl rfl)
  exact ⟨h.1, h.2 1 0 0 0⟩

/-- C8 counterexample: on two identical cells (everything zero, default
parameters) solve_snow raises ValueError; it does not return the
element-wise result ok ([0, 0], [0, 0]) that the per-cell update
predicts for these inputs. -/
theorem solve_snow_arr_two_cell_error :
    solve_snow_arr sin_zero [0, 0] [0, 0] 274 [0, 0] [0, 0] 1 (5/2) (3/2) (9/2) 1 0 1 =
      Except.error PyErr.valueError ∧
    Except.error PyErr.valueError ≠
      (Except.ok ([0, 0], [0, 0]) : Except PyErr (List ℚ × List ℚ)) := by
  constructor
  · simp [solve_snow_arr]
  · simp
